import Mathlib

/-
Verification of the Diu-routine schedule-parsing and caching core.

The definitions below are a shallow embedding of the TypeScript sources:
  src/server/services/pdf-parser-v3.ts        (class PDFParserV3)
  src/server/services/pdf-parser-optimized.ts (class PDFParserOptimized)
  src/server/services/pdf-cache-service.ts    (class PdfCacheService)
  src/unnamed/part_005                        (class PDFParserV2, calculateStats)
Strings are modelled as Lean String / List Char, JavaScript regular
expressions as explicit backtracking matchers with the same
leftmost-match, greedy-with-backtrack semantics, and the MySQL tables used
by PdfCacheService as lists of rows in primary-key (insertion) order.
-/

/-! ## JavaScript string primitives -/

def isUpperAZ (c : Char) : Bool := decide ('A' ≤ c) && decide (c ≤ 'Z')

def isLowerAZ (c : Char) : Bool := decide ('a' ≤ c) && decide (c ≤ 'z')

def isDigit09 (c : Char) : Bool := decide ('0' ≤ c) && decide (c ≤ '9')

/-- Whitespace as matched by the JavaScript escape for white space and trim. -/
def isJsSpace (c : Char) : Bool :=
  c == ' ' || c == '\t' || c == '\n' || c == '\r' || c == '\x0b' || c == '\x0c'

/-- Word characters for the JavaScript word-boundary assertion. -/
def isWordChar (c : Char) : Bool := isUpperAZ c || isLowerAZ c || isDigit09 c || c == '_'

def jsToUpperChar (c : Char) : Char :=
  if isLowerAZ c then Char.ofNat (c.toNat - 32) else c

def jsToLowerChar (c : Char) : Char :=
  if isUpperAZ c then Char.ofNat (c.toNat + 32) else c

/-- Embedding of the JavaScript toUpperCase call (ASCII range). -/
def jsToUpper (s : String) : String := String.mk (s.data.map jsToUpperChar)

/-- Embedding of the JavaScript trim call. -/
def jsTrim (l : List Char) : List Char :=
  ((l.dropWhile isJsSpace).reverse.dropWhile isJsSpace).reverse

/-- Embedding of the two-argument JavaScript substring call: indices are
clamped to the string length and swapped when given out of order. -/
def jsSubstring (l : List Char) (a b : Nat) : List Char :=
  let a2 := min a l.length
  let b2 := min b l.length
  (l.drop (min a2 b2)).take (max a2 b2 - min a2 b2)

/-- Embedding of the JavaScript split on a newline character. -/
def splitLinesAux : List Char → List Char → List (List Char)
  | [], acc => [acc.reverse]
  | c :: rest, acc =>
    if c == '\n' then acc.reverse :: splitLinesAux rest []
    else splitLinesAux rest (c :: acc)

def splitLines (l : List Char) : List (List Char) := splitLinesAux l []

/-- Boolean test that a list starts with the given needle. -/
def startsWithL : List Char → List Char → Bool
  | [], _ => true
  | _ :: _, [] => false
  | a :: as, b :: bs => a == b && startsWithL as bs

/-- Embedding of the JavaScript includes call: substring containment. -/
def includesL : List Char → List Char → Bool
  | [], needle => startsWithL needle []
  | c :: rest, needle => startsWithL needle (c :: rest) || includesL rest needle

/-! ## Generic global regex scan

JavaScript exec with the g flag repeatedly finds the leftmost match at or
after lastIndex and continues from the end of each match.  The scanner
below walks the line one character at a time; after a match of length len
it skips the remaining len - 1 characters of the match. -/

def scanMatches {α : Type} (m : List Char → Option (α × Nat)) :
    List Char → Nat → Nat → List (α × Nat)
  | [], _, _ => []
  | c :: rest, i, skip =>
    if skip > 0 then scanMatches m rest (i + 1) (skip - 1)
    else
      match m (c :: rest) with
      | some (a, len) => (a, i) :: scanMatches m rest (i + 1) (len - 1)
      | none => scanMatches m rest (i + 1) 0

/-! ## The course token pattern

Pattern ([A-Z]{3}[0-9]{3})[(]([0-9]{2,3})_([A-Z][0-9]?)[)] shared by
PDFParserV3.extractClasses and PDFParserOptimized.extractClasses.
The quantifier for the batch digits is greedy with backtracking: a run of
two or three digits directly followed by an underscore matches, a longer
run does not.  The optional section digit is taken only when the closing
parenthesis follows it. -/

structure CourseTok where
  code : String
  batch : String
  sect : String
  len : Nat
deriving DecidableEq

def matchBatchUnderscore : List Char → Option (List Char × List Char)
  | e1 :: e2 :: e3 :: e4 :: rest =>
    if isDigit09 e1 && isDigit09 e2 then
      if isDigit09 e3 then
        if e4 == '_' then some ([e1, e2, e3], rest) else none
      else if e3 == '_' then some ([e1, e2], e4 :: rest)
      else none
    else none
  | [e1, e2, e3] =>
    if isDigit09 e1 && isDigit09 e2 && e3 == '_' then some ([e1, e2], []) else none
  | _ => none

def matchSectionParen : List Char → Option (List Char × List Char)
  | s1 :: rest =>
    if isUpperAZ s1 then
      match rest with
      | ')' :: rest2 => some ([s1], rest2)
      | d :: ')' :: rest2 => if isDigit09 d then some ([s1, d], rest2) else none
      | _ => none
    else none
  | [] => none

def matchCourseAt (l : List Char) : Option (CourseTok × Nat) :=
  match l with
  | c1 :: c2 :: c3 :: d1 :: d2 :: d3 :: '(' :: rest =>
    if isUpperAZ c1 && isUpperAZ c2 && isUpperAZ c3 &&
       isDigit09 d1 && isDigit09 d2 && isDigit09 d3 then
      match matchBatchUnderscore rest with
      | some (batch, rest2) =>
        match matchSectionParen rest2 with
        | some (sectionChars, _) =>
          let len := 7 + batch.length + 1 + sectionChars.length + 1
          some (⟨String.mk [c1, c2, c3, d1, d2, d3], String.mk batch,
                 String.mk sectionChars, len⟩, len)
        | none => none
      | none => none
    else none
  | _ => none

def courseScan (line : List Char) : List (CourseTok × Nat) :=
  scanMatches matchCourseAt line 0 0

/-! ## The time range pattern

Pattern ([0-9]{2}:[0-9]{2})-([0-9]{2}:[0-9]{2}) applied globally to the
line after a weekday header. -/

def matchTimeAt (l : List Char) : Option ((String × String) × Nat) :=
  match l with
  | a :: b :: ':' :: c :: d :: '-' :: e :: f :: ':' :: g :: h :: _ =>
    if isDigit09 a && isDigit09 b && isDigit09 c && isDigit09 d &&
       isDigit09 e && isDigit09 f && isDigit09 g && isDigit09 h then
      some ((String.mk [a, b, ':', c, d], String.mk [e, f, ':', g, h]), 11)
    else none
  | _ => none

def timeScan (line : List Char) : List (String × String) :=
  (scanMatches matchTimeAt line 0 0).map Prod.fst

/-! ## The column anchor pattern

Global search for the literal Course in the header line two lines after a
weekday header; the recorded values are the match indices. -/

def matchAnchorAt (l : List Char) : Option (Unit × Nat) :=
  if startsWithL ("Course".data) l then some ((), 6) else none

def anchorScan (line : List Char) : List Nat :=
  (scanMatches matchAnchorAt line 0 0).map Prod.snd

/-! ## Room and teacher patterns of PDFParserV3

The room pattern ([A-Z]{1,2}-[0-9]{2,3}([(][A-Z][)])?|G[0-9]-[0-9]{3})
followed by optional whitespace and the end anchor is applied to the
window of up to 50 characters before a course token; exec returns the
leftmost start position at which some backtracking alternative succeeds,
trying greedier alternatives first. -/

def tryRun (p : Char → Bool) : Nat → List Char → Option (List Char × List Char)
  | 0, rest => some ([], rest)
  | _ + 1, [] => none
  | n + 1, c :: rest =>
    if p c then (tryRun p n rest).map (fun x => (c :: x.1, x.2)) else none

def roomAttemptV3 (nl nd : Nat) (paren : Bool) (l : List Char) : Option (List Char) :=
  match tryRun isUpperAZ nl l with
  | none => none
  | some (ls, r1) =>
    match r1 with
    | '-' :: r2 =>
      match tryRun isDigit09 nd r2 with
      | none => none
      | some (ds, r3) =>
        if paren then
          match r3 with
          | '(' :: u :: ')' :: r4 =>
            if isUpperAZ u && r4.all isJsSpace then
              some (ls ++ '-' :: ds ++ ['(', u, ')'])
            else none
          | _ => none
        else if r3.all isJsSpace then some (ls ++ '-' :: ds) else none
    | _ => none

def roomAttemptG (l : List Char) : Option (List Char) :=
  match l with
  | 'G' :: d :: '-' :: e1 :: e2 :: e3 :: r =>
    if isDigit09 d && isDigit09 e1 && isDigit09 e2 && isDigit09 e3 &&
       r.all isJsSpace then
      some ['G', d, '-', e1, e2, e3]
    else none
  | _ => none

def roomTryAtV3 (l : List Char) : Option (List Char) :=
  (roomAttemptV3 2 3 true l).orElse fun _ =>
  (roomAttemptV3 2 3 false l).orElse fun _ =>
  (roomAttemptV3 2 2 true l).orElse fun _ =>
  (roomAttemptV3 2 2 false l).orElse fun _ =>
  (roomAttemptV3 1 3 true l).orElse fun _ =>
  (roomAttemptV3 1 3 false l).orElse fun _ =>
  (roomAttemptV3 1 2 true l).orElse fun _ =>
  (roomAttemptV3 1 2 false l).orElse fun _ =>
  roomAttemptG l

def roomExecV3 : List Char → Option (List Char)
  | [] => none
  | c :: rest =>
    match roomTryAtV3 (c :: rest) with
    | some r => some r
    | none => roomExecV3 rest

/-- Teacher pattern of PDFParserV3, anchored at the window start:
optional whitespace, then two to four uppercase letters taken greedily,
then optionally an underscore with at least one digit. -/
def teacherMatchV3 (l : List Char) : Option (List Char) :=
  let l1 := l.dropWhile isJsSpace
  let run := l1.takeWhile isUpperAZ
  if run.length < 2 then none
  else
    let k := min 4 run.length
    let letters := l1.take k
    match l1.drop k with
    | '_' :: r2 =>
      let ds := r2.takeWhile isDigit09
      if ds.isEmpty then some letters else some (letters ++ '_' :: ds)
    | _ => some letters

/-! ## Room and teacher patterns of PDFParserOptimized -/

/-- Teacher pattern of PDFParserOptimized, anchored at the window start:
optional whitespace, one to three uppercase letters, then a word
boundary.  A run of four or more letters, or a run directly followed by a
digit, a lowercase letter or an underscore, has no boundary after any
greedy or backtracked choice, so the whole match fails. -/
def teacherMatchOpt (l : List Char) : Option (List Char) :=
  let l1 := l.dropWhile isJsSpace
  let run := l1.takeWhile isUpperAZ
  if run.length = 0 || run.length > 3 then none
  else
    match l1.drop run.length with
    | [] => some run
    | c :: _ => if isWordChar c then none else some run

/-- Room pattern of PDFParserOptimized: [A-Z]{2,3}[0-9]?-?[0-9]{3},
searched unanchored with leftmost-first semantics. -/
def roomOptAttempt (nl : Nat) (optD optDash : Bool) (l : List Char) :
    Option (List Char) :=
  match tryRun isUpperAZ nl l with
  | none => none
  | some (ls, r1) =>
    let step2 : Option (List Char × List Char) :=
      if optD then
        match r1 with
        | d :: r2 => if isDigit09 d then some ([d], r2) else none
        | [] => none
      else some ([], r1)
    match step2 with
    | none => none
    | some (mid, r2) =>
      let step3 : Option (List Char × List Char) :=
        if optDash then
          match r2 with
          | '-' :: r3 => some (['-'], r3)
          | _ => none
        else some ([], r2)
      match step3 with
      | none => none
      | some (dash, r3) =>
        match tryRun isDigit09 3 r3 with
        | some (ds, _) => some (ls ++ mid ++ dash ++ ds)
        | none => none

def roomTryAtOpt (l : List Char) : Option (List Char) :=
  (roomOptAttempt 3 true true l).orElse fun _ =>
  (roomOptAttempt 3 true false l).orElse fun _ =>
  (roomOptAttempt 3 false true l).orElse fun _ =>
  (roomOptAttempt 3 false false l).orElse fun _ =>
  (roomOptAttempt 2 true true l).orElse fun _ =>
  (roomOptAttempt 2 true false l).orElse fun _ =>
  (roomOptAttempt 2 false true l).orElse fun _ =>
  (roomOptAttempt 2 false false l).orElse fun _ => none

def roomExecOpt : List Char → Option (List Char)
  | [] => none
  | c :: rest =>
    match roomTryAtOpt (c :: rest) with
    | some r => some r
    | none => roomExecOpt rest

/-! ## Shared data model -/

structure ClassSchedule where
  day : String
  timeStart : String
  timeEnd : String
  courseCode : String
  courseName : String
  batch : String
  sect : String
  room : String
  teacher : String
  batchSection : String
deriving DecidableEq

structure ScheduleStats where
  totalClasses : Nat
  busiestDay : String
  lightestDay : String
  busiestDayCount : Nat
  lightestDayCount : Nat
deriving DecidableEq

structure ParsedSchedule where
  classes : List ClassSchedule
  stats : ScheduleStats
  faculty : List String
deriving DecidableEq

structure TimeSlot where
  start : String
  stop : String
  columnStart : Nat
  columnEnd : Nat
deriving DecidableEq, Inhabited

def DAYS : List String :=
  ["SATURDAY", "SUNDAY", "MONDAY", "TUESDAY", "WEDNESDAY", "THURSDAY", "FRIDAY"]

/-- Conversion of an uppercase weekday to its display form, as in
day.charAt(0) + day.slice(1).toLowerCase(). -/
def fmtDay (s : String) : String :=
  match s.data with
  | [] => ""
  | c :: rest => String.mk (c :: rest.map jsToLowerChar)

/-- Lookup in a course-name record, COURSE_NAMES[code] with the code
itself as fallback. -/
def lookupCourseName (table : List (String × String)) (code : String) : String :=
  match table.find? (fun p => p.1 == code) with
  | some p => p.2
  | none => code

/-- Course name record of pdf-parser-v3.ts (COURSE_NAMES). -/
def COURSE_NAMES_V3 : List (String × String) :=
  [("ENG101", "Basic Functional English and English Spoken"),
   ("ENG102", "Writing and Comprehension"),
   ("MAT101", "Mathematics - I"),
   ("MAT102", "Mathematics-II: Calculus, Complex Variables and Linear Algebra"),
   ("CSE112", "Computer Fundamentals"),
   ("CSE113", "Programming and Problem Solving"),
   ("CSE114", "Programming and Problem Solving Lab"),
   ("CSE115", "Introduction to Biology and Chemistry for Computation"),
   ("CSE121", "Electrical Circuits"),
   ("CSE122", "Electrical Circuits Lab"),
   ("CSE123", "Data Structure"),
   ("CSE124", "Data Structure Lab"),
   ("PHY101", "Physics-I"),
   ("PHY102", "Physics - II"),
   ("PHY103", "Physics - II Lab"),
   ("MAT211", "Engineering Mathematics"),
   ("CSE212", "Discrete Mathematics"),
   ("CSE213", "Algorithms"),
   ("CSE214", "Algorithms Lab"),
   ("CSE215", "Electronic Devices and Circuits"),
   ("CSE216", "Electronic Devices and Circuits Lab"),
   ("CSE221", "Object Oriented Programming"),
   ("CSE222", "Object Oriented Programming Lab"),
   ("CSE223", "Digital Logic Design"),
   ("CSE224", "Digital Logic Design Lab"),
   ("CSE225", "Data Communication"),
   ("CSE226", "Numerical Methods"),
   ("CSE227", "Systems Analysis and Design"),
   ("CSE228", "Theory of Computation"),
   ("BNS101", "Bangladesh Studies (History of Independence and Contemporary Issues)"),
   ("STA101", "Statistics and Probability"),
   ("AOL101", "Art of Living"),
   ("CSE311", "Database Management System"),
   ("CSE312", "Database Management System Lab"),
   ("CSE313", "Compiler Design"),
   ("CSE314", "Compiler Design Lab"),
   ("CSE315", "Software Engineering"),
   ("CSE316", "Artificial Intelligence"),
   ("CSE317", "Microprocessor and Microcontrollers"),
   ("CSE321", "Computer Networks"),
   ("CSE322", "Computer Networks Lab"),
   ("CSE323", "Operating Systems"),
   ("CSE324", "Operating Systems Lab"),
   ("CSE325", "Instrumentation and Control"),
   ("CSE326", "Social and Professional Issues in Computing"),
   ("ACT327", "Financial and Managerial Accounting"),
   ("ECO426", "Engineering Economics"),
   ("CSE411", "Computer Graphics"),
   ("CSE412", "Computer Graphics Lab"),
   ("CSE413", "Computer Architecture and Organization"),
   ("CSE498", "Capstone Project (Phase I)"),
   ("CSE499", "Capstone Project (Phase II)")]

/-- Course name record of pdf-parser-optimized.ts (COURSE_NAMES). -/
def COURSE_NAMES_OPT : List (String × String) :=
  [("CSE112", "Computer Fundamentals"),
   ("CSE113", "Programming and Problem Solving"),
   ("CSE114", "Programming and Problem Solving Lab"),
   ("CSE123", "Data Structure"),
   ("CSE124", "Data Structure Lab"),
   ("CSE213", "Algorithms"),
   ("CSE214", "Algorithms Lab"),
   ("CSE221", "Object Oriented Programming"),
   ("CSE222", "Object Oriented Programming Lab"),
   ("CSE223", "Digital Logic Design"),
   ("CSE224", "Digital Logic Design Lab"),
   ("CSE225", "Data Communication"),
   ("CSE311", "Database Management System"),
   ("CSE312", "Database Management System Lab"),
   ("CSE313", "Compiler Design"),
   ("CSE314", "Compiler Design Lab"),
   ("CSE315", "Software Engineering"),
   ("CSE316", "Artificial Intelligence"),
   ("CSE321", "Computer Networks"),
   ("CSE322", "Computer Networks Lab"),
   ("CSE323", "Operating Systems"),
   ("CSE324", "Operating Systems Lab"),
   ("CSE411", "Computer Graphics"),
   ("CSE412", "Computer Graphics Lab"),
   ("CSE413", "Computer Architecture and Organization"),
   ("CSE498", "Capstone Project (Phase I)"),
   ("CSE499", "Capstone Project (Phase II)"),
   ("MAT101", "Mathematics - I"),
   ("MAT102", "Mathematics-II"),
   ("ENG101", "Basic Functional English"),
   ("ENG102", "Writing and Comprehension"),
   ("PHY101", "Physics-I"),
   ("PHY102", "Physics - II")]

namespace PDFParserV3

/-- Column construction of PDFParserV3.extractClasses: time slots are
built only when the number of time ranges equals the number of Course
anchors; the first column starts at offset 0, the boundary between two
columns is the midpoint of adjacent anchor positions, and the last column
ends at the sentinel width 300 (a falsy next position also yields 300). -/
def buildTimeSlots (times : List (String × String)) (positions : List Nat) :
    List TimeSlot :=
  if times.length = positions.length then
    (List.range times.length).map (fun j =>
      let currentPos := positions.getD j 0
      let columnStart := if j = 0 then 0 else (positions.getD (j - 1) 0 + currentPos) / 2
      let columnEnd :=
        match positions.get? (j + 1) with
        | some p => if p = 0 then 300 else (currentPos + p) / 2
        | none => 300
      ⟨(times.getD j ("", "")).1, (times.getD j ("", "")).2, columnStart, columnEnd⟩)
  else []

/-- Mutable scan state of PDFParserV3.extractClasses. -/
structure St where
  currentDay : String
  timeSlots : List TimeSlot
  inComLabSection : Bool
  seen : List String
  classes : List ClassSchedule

def pushUnique (st : St) (uniqueKey : String) (entry : ClassSchedule) : St :=
  if st.seen.contains uniqueKey then st
  else { st with seen := uniqueKey :: st.seen, classes := st.classes ++ [entry] }

/-- Processing of one course-pattern match inside the line loop of
PDFParserV3.extractClasses. -/
def handleMatch (line : List Char) (st : St) (m : CourseTok × Nat) : St :=
  let courseCode := m.1.code
  let batch := m.1.batch
  let sect := m.1.sect
  let matchPosition := m.2
  let timeSlot :=
    match st.timeSlots.find?
        (fun s => decide (matchPosition ≥ s.columnStart) &&
                  decide (matchPosition < s.columnEnd)) with
    | some s => s
    | none => st.timeSlots.headD default
  let beforeCourse := jsSubstring line (matchPosition - 50) matchPosition
  let room :=
    match roomExecV3 beforeCourse with
    | some r => String.mk r
    | none => "TBA"
  let afterCourse := jsSubstring line (matchPosition + m.1.len) (matchPosition + m.1.len + 30)
  let teacher :=
    match teacherMatchV3 afterCourse with
    | some t => String.mk t
    | none => "TBA"
  let courseName := lookupCourseName COURSE_NAMES_V3 courseCode
  let batchSection := batch ++ "_" ++ sect
  let classEntry : ClassSchedule :=
    ⟨st.currentDay, timeSlot.start, timeSlot.stop, courseCode, courseName,
     batch, sect, (if st.inComLabSection then room ++ " (LAB)" else room),
     teacher, batchSection⟩
  let uniqueKey := st.currentDay ++ "|" ++ timeSlot.start ++ "|" ++ courseCode ++ "|" ++ batchSection
  pushUnique st uniqueKey classEntry

def processMatches (line : List Char) : List (CourseTok × Nat) → St → St
  | [], st => st
  | m :: ms, st => processMatches line ms (handleMatch line st m)

/-- Processing of one line of PDFParserV3.extractClasses, with the two
following lines available for the weekday-header lookahead. -/
def processLine (line next1 next2 : List Char) (st : St) : St :=
  let dayUpper := String.mk ((jsTrim line).map jsToUpperChar)
  if DAYS.contains dayUpper then
    { st with currentDay := dayUpper,
              timeSlots := buildTimeSlots (timeScan next1) (anchorScan next2),
              inComLabSection := false }
  else if includesL line ("(COM LAB)".data) || includesL line ("COM LAB".data) then
    { st with inComLabSection := true }
  else if st.currentDay == "" || st.timeSlots.isEmpty then st
  else processMatches line (courseScan line) st

def loop : List (List Char) → St → St
  | [], st => st
  | l :: rest, st => loop rest (processLine l (rest.getD 0 []) (rest.getD 1 []) st)

/-- Embedding of PDFParserV3.extractClasses. -/
def extractClasses (text : String) : List ClassSchedule :=
  (loop (splitLines text.data) ⟨"", [], false, [], []⟩).classes

/-- Accumulator of the busiest and lightest day scan; the JavaScript
Infinity initial value of lightestCount is modelled as none. -/
structure StatAcc where
  busiestDay : String
  busiestCount : Nat
  lightestDay : String
  lightestCount : Option Nat

def ltInfinity (c : Nat) : Option Nat → Bool
  | none => true
  | some v => decide (c < v)

def statLoop (counts : String → Nat) : List String → StatAcc → StatAcc
  | [], acc => acc
  | day :: rest, acc =>
    let count := counts day
    let acc1 :=
      if count > acc.busiestCount then
        { acc with busiestDay := day, busiestCount := count }
      else acc
    let acc2 :=
      if ltInfinity count acc1.lightestCount && decide (count > 0) then
        { acc1 with lightestDay := day, lightestCount := some count }
      else acc1
    statLoop counts rest acc2

/-- Per-day counts, dayCounts[day] of calculateStats. -/
def dayCount (classes : List ClassSchedule) (day : String) : Nat :=
  (classes.filter (fun c => c.day == day)).length

/-- Embedding of PDFParserV3.calculateStats. -/
def calculateStats (classes : List ClassSchedule) : ScheduleStats :=
  let acc := statLoop (dayCount classes) DAYS ⟨DAYS.headD "", 0, DAYS.headD "", none⟩
  ⟨classes.length, fmtDay acc.busiestDay, fmtDay acc.lightestDay,
   acc.busiestCount, acc.lightestCount.getD 0⟩

/-- Embedding of PDFParserV3.filterByRoom. -/
def filterByRoom (classes : List ClassSchedule) (room : String) : List ClassSchedule :=
  classes.filter (fun c => includesL c.room.data (jsToUpper room).data)

/-- Embedding of PDFParserV3.groupByDay, as an association list in the
insertion order of the record keys. -/
def groupByDay (classes : List ClassSchedule) : List (String × List ClassSchedule) :=
  DAYS.map (fun day => (fmtDay day, classes.filter (fun c => c.day == day)))

/-- Insertion-order deduplication, Array.from(new Set(list)). -/
def dedupAux : List String → List String → List String
  | _, [] => []
  | seenTs, x :: xs =>
    if seenTs.contains x then dedupAux seenTs xs
    else x :: dedupAux (x :: seenTs) xs

def uniqueTeachers (classes : List ClassSchedule) : List String :=
  dedupAux [] (classes.map (fun c => c.teacher))

/-- Embedding of PDFParserV3.parsePDFFromURL.  The document download and
the pdftotext invocation are external collaborators, modelled as the
outcomes they would produce at this call; the pair of counters records
how often each collaborator is invoked.  Any failure is caught by the
single catch block and rethrown as one wrapped error. -/
def parsePDFFromURL (fetch : Except String String)
    (extract : String → Except String String) :
    Except String ParsedSchedule × Nat × Nat :=
  match fetch with
  | Except.error e => (Except.error ("Failed to parse PDF: " ++ e), 1, 0)
  | Except.ok pdfBuffer =>
    match extract pdfBuffer with
    | Except.error e => (Except.error ("Failed to parse PDF: " ++ e), 1, 1)
    | Except.ok text =>
      let classes := extractClasses text
      (Except.ok ⟨classes, calculateStats classes, uniqueTeachers classes⟩, 1, 1)

end PDFParserV3

namespace PDFParserV2

/-- Embedding of PDFParserV2.calculateStats from src/unnamed/part_005.
After the initial empty-input check its body is line for line the body of
PDFParserV3.calculateStats, so the shared loop is reused here. -/
def calculateStats (classes : List ClassSchedule) : ScheduleStats :=
  if classes.length = 0 then ⟨0, "N/A", "N/A", 0, 0⟩
  else
    let acc := PDFParserV3.statLoop (PDFParserV3.dayCount classes) DAYS
      ⟨DAYS.headD "", 0, DAYS.headD "", none⟩
    ⟨classes.length, fmtDay acc.busiestDay, fmtDay acc.lightestDay,
     acc.busiestCount, acc.lightestCount.getD 0⟩

end PDFParserV2

namespace PDFParserOptimized

/-- Fallback of a zero or missing position, the JavaScript expression
positions[idx] with a default applied by the or operator. -/
def jsIdxOr (positions : List Nat) (i : Nat) (dflt : Nat) : Nat :=
  match positions.get? i with
  | some p => if p = 0 then dflt else p
  | none => dflt

def buildTimeSlotsAux (positions : List Nat) : Nat → List (String × String) → List TimeSlot
  | _, [] => []
  | idx, t :: rest =>
    ⟨t.1, t.2, jsIdxOr positions idx 0, jsIdxOr positions (idx + 1) 999⟩ ::
    buildTimeSlotsAux positions (idx + 1) rest

/-- Column construction of PDFParserOptimized.extractClasses: one slot
per detected time range, in index order, the start offset defaulting to 0
and the end offset to 999 when no anchor position is available. -/
def buildTimeSlots (times : List (String × String)) (positions : List Nat) :
    List TimeSlot :=
  buildTimeSlotsAux positions 0 times

/-- Mutable scan state of PDFParserOptimized.extractClasses. -/
structure St where
  currentDay : String
  timeSlots : List TimeSlot
  seen : List String
  classes : List ClassSchedule

def pushUnique (st : St) (uniqueKey : String) (entry : ClassSchedule) : St :=
  if st.seen.contains uniqueKey then st
  else { st with seen := uniqueKey :: st.seen, classes := st.classes ++ [entry] }

/-- Processing of one course-pattern match inside the line loop of
PDFParserOptimized.extractClasses.  A match whose offset falls in no
column is skipped; the deduplication key carries all six fields day,
time, course, batch-section, teacher and room. -/
def handleMatch (line : List Char) (st : St) (m : CourseTok × Nat) : St :=
  let courseCode := m.1.code
  let batch := m.1.batch
  let sect := m.1.sect
  let matchPosition := m.2
  let batchSection := batch ++ "_" ++ sect
  match st.timeSlots.find?
      (fun s => decide (matchPosition ≥ s.columnStart) &&
                decide (matchPosition < s.columnEnd)) with
  | none => st
  | some slot =>
    let afterCourse := line.drop (matchPosition + m.1.len)
    let teacher :=
      match teacherMatchOpt afterCourse with
      | some t => String.mk t
      | none => "TBA"
    let columnText := jsSubstring line slot.columnStart slot.columnEnd
    let room :=
      match roomExecOpt columnText with
      | some r => String.mk r
      | none => "TBA"
    let uniqueKey := st.currentDay ++ "-" ++ slot.start ++ "-" ++ courseCode ++ "-" ++
                     batchSection ++ "-" ++ teacher ++ "-" ++ room
    pushUnique st uniqueKey
      ⟨fmtDay st.currentDay, slot.start, slot.stop, courseCode,
       lookupCourseName COURSE_NAMES_OPT courseCode, batch, sect, room,
       teacher, batchSection⟩

def processMatches (line : List Char) : List (CourseTok × Nat) → St → St
  | [], st => st
  | m :: ms, st => processMatches line ms (handleMatch line st m)

def processLine (line : List Char) (st : St) : St :=
  if st.currentDay == "" || st.timeSlots.isEmpty then st
  else processMatches line (courseScan line) st

/-- Line loop of PDFParserOptimized.extractClasses; after a weekday
header the time line and the header line are consumed by the lookahead
and skipped. -/
def loop : List (List Char) → St → St
  | [], st => st
  | l :: rest, st =>
    let dayUpper := String.mk ((jsTrim l).map jsToUpperChar)
    if DAYS.contains dayUpper then
      let st2 := { st with
        currentDay := dayUpper,
        timeSlots := buildTimeSlots (timeScan (rest.getD 0 []))
                                    (anchorScan (rest.getD 1 [])) }
      match rest with
      | [] => st2
      | [_] => st2
      | _ :: _ :: rest2 => loop rest2 st2
    else
      loop rest (processLine l st)

/-- Embedding of PDFParserOptimized.extractClasses. -/
def extractClasses (text : String) : List ClassSchedule :=
  (loop (splitLines text.data) ⟨"", [], [], []⟩).classes

/-- Embedding of PDFParserOptimized.filterByRoom. -/
def filterByRoom (classes : List ClassSchedule) (room : String) : List ClassSchedule :=
  classes.filter (fun c => includesL c.room.data (jsToUpper room).data)

end PDFParserOptimized

/-! ## Cache store

Model of pdf-cache-service.ts.  The two MySQL tables are lists of rows in
primary-key order, which for the auto-increment keys used here is
insertion order; a select without an order clause is modelled as reading
the list from the front, and limit(1) as List.take 1.  Dates are natural
numbers counted in days.  The outcome the underlying parser would produce
at a given call is passed in as a parameter, and parseCount records how
often the parser is invoked. -/

structure CacheRow where
  id : Nat
  department : String
  pdfUrl : String
  version : String
  parsedAt : Nat
  expiresAt : Nat
  totalClasses : Nat
deriving DecidableEq

structure ClassRow where
  cacheId : Nat
  day : String
  timeStart : String
  timeEnd : String
  courseCode : String
  courseName : String
  batch : String
  sect : String
  batchSection : String
  room : String
  teacher : String
  department : String
deriving DecidableEq

structure CacheDb where
  pdfCache : List CacheRow
  classSchedules : List ClassRow
  nextId : Nat
  parseCount : Nat
deriving DecidableEq

structure CacheStatus where
  isCached : Bool
  parsedAt : Option Nat
  expiresAt : Option Nat
  totalClasses : Option Nat
deriving DecidableEq

namespace PdfCacheService

def CACHE_DURATION_DAYS : Nat := 30

/-- Reconstruction of a ClassSchedule from a stored row, with the
courseCode fallback applied to a falsy courseName. -/
def rowToClass (c : ClassRow) : ClassSchedule :=
  ⟨c.day, c.timeStart, c.timeEnd, c.courseCode,
   (if c.courseName == "" then c.courseCode else c.courseName),
   c.batch, c.sect, c.room, c.teacher, c.batchSection⟩

def classToRow (cacheId : Nat) (department : String) (c : ClassSchedule) : ClassRow :=
  ⟨cacheId, c.day, c.timeStart, c.timeEnd, c.courseCode, c.courseName,
   c.batch, c.sect, c.batchSection, c.room, c.teacher, department⟩

/-- Embedding of PdfCacheService.getOrParsePdf.  The select filters on
department and version with limit(1); among that at most one row, a
record counts as valid when its expiry lies strictly in the future.  On a
miss the parser outcome is consulted: an error propagates with no table
written, a success appends one cache row and its class rows. -/
def getOrParsePdf (department pdfUrl version : String) (now : Nat)
    (parseOutcome : Except String ParsedSchedule) (db : CacheDb) :
    Except String (List ClassSchedule) × CacheDb :=
  let cache := (db.pdfCache.filter
    (fun c => c.department == department && c.version == version)).take 1
  match cache.find? (fun c => decide (now < c.expiresAt)) with
  | some validCache =>
    let classes := db.classSchedules.filter (fun r => r.cacheId == validCache.id)
    (Except.ok (classes.map rowToClass), db)
  | none =>
    match parseOutcome with
    | Except.error e => (Except.error e, { db with parseCount := db.parseCount + 1 })
    | Except.ok parsed =>
      let expiresAt := now + CACHE_DURATION_DAYS
      let newRow : CacheRow :=
        ⟨db.nextId, department, pdfUrl, version, now, expiresAt, parsed.classes.length⟩
      (Except.ok parsed.classes,
       { pdfCache := db.pdfCache ++ [newRow],
         classSchedules := db.classSchedules ++
           (if parsed.classes.length > 0 then
             parsed.classes.map (classToRow db.nextId department)
            else []),
         nextId := db.nextId + 1,
         parseCount := db.parseCount + 1 })

/-- Embedding of PdfCacheService.clearCache: the class rows owned by any
cache row of the department are deleted, then the cache rows themselves. -/
def clearCache (department : String) (db : CacheDb) : CacheDb :=
  let caches := db.pdfCache.filter (fun c => c.department == department)
  { db with
    classSchedules := db.classSchedules.filter
      (fun r => !(caches.any (fun c => c.id == r.cacheId))),
    pdfCache := db.pdfCache.filter (fun c => !(c.department == department)) }

/-- Embedding of PdfCacheService.getCacheStatus: the select filters on
department alone with limit(1), and the answer reflects only that first
row. -/
def getCacheStatus (department : String) (now : Nat) (db : CacheDb) : CacheStatus :=
  match (db.pdfCache.filter (fun c => c.department == department)).take 1 with
  | [] => ⟨false, none, none, none⟩
  | c :: _ =>
    ⟨!(decide (c.expiresAt ≤ now)), some c.parsedAt, some c.expiresAt,
     some c.totalClasses⟩

end PdfCacheService

/-! ## Derived observers and concrete inputs -/

/-- Four of the fields of an extracted entry, joined exactly as the
deduplication key of PDFParserV3.extractClasses is joined. -/
def keyV3 (c : ClassSchedule) : String :=
  c.day ++ "|" ++ c.timeStart ++ "|" ++ c.courseCode ++ "|" ++ c.batchSection

/-- Six of the fields of an extracted entry, joined exactly as the
deduplication key of PDFParserOptimized.extractClasses is joined; the
stored day is the display form, so it is first mapped back to uppercase. -/
def keyOpt (c : ClassSchedule) : String :=
  jsToUpper c.day ++ "-" ++ c.timeStart ++ "-" ++ c.courseCode ++ "-" ++
  c.batchSection ++ "-" ++ c.teacher ++ "-" ++ c.room

/-- Invariant of the PDFParserV3 scan state: every extracted entry has
its key recorded, and the keys of extracted entries are pairwise
distinct. -/
def InvV3 (st : PDFParserV3.St) : Prop :=
  (∀ c ∈ st.classes, keyV3 c ∈ st.seen) ∧
  st.classes.Pairwise (fun a b => keyV3 a ≠ keyV3 b)

/-- Invariant of the PDFParserOptimized scan state; the current day is
empty or one of the seven canonical uppercase weekday names. -/
def InvOpt (st : PDFParserOptimized.St) : Prop :=
  (st.currentDay = "" ∨ st.currentDay ∈ DAYS) ∧
  (∀ c ∈ st.classes, keyOpt c ∈ st.seen) ∧
  st.classes.Pairwise (fun a b => keyOpt a ≠ keyOpt b)

/-- Document with one day block whose single entry line holds two
candidates agreeing on day, time slot, course code and batch-section and
differing in teacher and room. -/
def c1text : String :=
  "SATURDAY\n08:30-10:00\nCourse\nKT-222CSE112(71_I)MB   KT-300CSE112(71_I)XY"

/-- Document with one day block whose header carries two time ranges but
only one Course anchor, followed by an entry line. -/
def c2text : String :=
  "SATURDAY\n08:30-10:00  10:00-11:30\nCourse\nKT-222CSE112(71_I)MB  KT-223MAT101(71_I)AST"

/-- The SATURDAY scenario block: day header, two time ranges, two Course
anchor tokens positioned over their columns, one entry line. -/
def c7text : String :=
  "SATURDAY\n08:30-10:00  10:00-11:30\n      Course                Course\nKT-222CSE112(71_I)MB  KT-223MAT101(71_I)AST"

def monClass : ClassSchedule :=
  ⟨"MONDAY", "08:30", "10:00", "CSE213", "Algorithms", "70", "A", "KT-111", "AB", "70_A"⟩

def satClass : ClassSchedule :=
  ⟨"SATURDAY", "10:00", "11:30", "CSE112", "Computer Fundamentals", "71", "I", "KT-222", "MB", "71_I"⟩

def badDayClass : ClassSchedule :=
  ⟨"FUNDAY", "08:30", "10:00", "CSE112", "Computer Fundamentals", "71", "I", "KT-222", "MB", "71_I"⟩

def demoParsed : ParsedSchedule :=
  ⟨[satClass], PDFParserV3.calculateStats [satClass], ["MB"]⟩

/-- Cache database holding one expired record for department cse,
version 1.0 (expiry 100), together with its stored class row. -/
def c5db : CacheDb :=
  ⟨[⟨1, "cse", "u", "1.0", 50, 100, 1⟩],
   [⟨1, "SATURDAY", "10:00", "11:30", "CSE112", "Computer Fundamentals",
     "71", "I", "71_I", "KT-222", "MB", "cse"⟩],
   2, 0⟩

/-- Cache database holding, for department cse, an expired first record
(expiry 100) followed by a valid one (expiry 300). -/
def c9db : CacheDb :=
  ⟨[⟨1, "cse", "u", "1.0", 50, 100, 1⟩, ⟨2, "cse", "u", "1.0", 150, 300, 1⟩],
   [], 3, 0⟩

/-- Cache database holding one valid record for department cse. -/
def c9dbValid : CacheDb :=
  ⟨[⟨1, "cse", "u", "1.0", 50, 300, 1⟩], [], 2, 0⟩

/-! ## Lemmas on substring containment -/

theorem startsWithL_iff (n h : List Char) :
    startsWithL n h = true ↔ ∃ t, h = n ++ t := by
  induction n generalizing h with
  | nil => simp [startsWithL]
  | cons a as ih =>
    cases h with
    | nil =>
      simp [startsWithL]
    | cons b bs =>
      simp only [startsWithL, Bool.and_eq_true, beq_iff_eq, ih]
      constructor
      · rintro ⟨rfl, t, rfl⟩
        exact ⟨t, rfl⟩
      · rintro ⟨t, ht⟩
        injection ht with h1 h2
        exact ⟨h1.symm, t, h2⟩

theorem includesL_iff (h n : List Char) :
    includesL h n = true ↔ ∃ p t, h = p ++ n ++ t := by
  induction h with
  | nil =>
    constructor
    · intro hS
      rcases (startsWithL_iff n []).mp (by simpa [includesL] using hS) with ⟨t, ht⟩
      rcases List.append_eq_nil.mp ht.symm with ⟨rfl, rfl⟩
      exact ⟨[], [], rfl⟩

    · rintro ⟨p, t, ht⟩
      rcases List.append_eq_nil.mp ht.symm with ⟨h1, rfl⟩
      rcases List.append_eq_nil.mp h1 with ⟨rfl, rfl⟩
      simp [includesL, startsWithL]
  | cons c rest ih =>
    simp only [includesL, Bool.or_eq_true, startsWithL_iff, ih]
    constructor
    · rintro (⟨t, ht⟩ | ⟨p, t, rfl⟩)
      · exact ⟨[], t, by simpa using ht⟩
      · exact ⟨c :: p, t, by simp⟩
    · rintro ⟨p, t, hp⟩
      cases p with
      | nil =>
        exact Or.inl ⟨t, by simpa using hp⟩
      | cons d p2 =>
        injection hp with h1 h2
        exact Or.inr ⟨p2, t, h2⟩

/-! ## Lemmas on deduplication -/

theorem contains_true_mem {l : List String} {s : String}
    (h : l.contains s = true) : s ∈ l := by
  simpa [List.contains, List.elem_iff] using h

theorem contains_not_true_not_mem {l : List String} {s : String}
    (h : ¬(l.contains s = true)) : s ∉ l := by
  intro hmem
  exact h (by simpa [List.contains, List.elem_iff] using hmem)

theorem pushUniqueV3_inv (st : PDFParserV3.St) (k : String) (e : ClassSchedule)
    (hk : keyV3 e = k) (h : InvV3 st) : InvV3 (PDFParserV3.pushUnique st k e) := by
  unfold PDFParserV3.pushUnique
  split
  · exact h
  · rename_i hc
    have hnot : k ∉ st.seen := contains_not_true_not_mem hc
    constructor
    · intro c hcmem
      rcases List.mem_append.mp hcmem with hmem | hmem
      · exact List.mem_cons_of_mem _ (h.1 c hmem)
      · rcases List.mem_singleton.mp hmem with rfl
        rw [hk]
        exact List.mem_cons_self _ _
    · rw [List.pairwise_append]
      refine ⟨h.2, List.pairwise_singleton _ _, ?_⟩
      intro a ha b hb
      rcases List.mem_singleton.mp hb with rfl
      intro heq
      exact hnot (hk ▸ heq ▸ h.1 a ha)

theorem handleMatchV3_inv (line : List Char) (st : PDFParserV3.St)
    (m : CourseTok × Nat) (h : InvV3 st) :
    InvV3 (PDFParserV3.handleMatch line st m) := by
  unfold PDFParserV3.handleMatch
  exact pushUniqueV3_inv _ _ _ rfl h

theorem processMatchesV3_inv (line : List Char) (ms : List (CourseTok × Nat))
    (st : PDFParserV3.St) (h : InvV3 st) :
    InvV3 (PDFParserV3.processMatches line ms st) := by
  induction ms generalizing st with
  | nil => exact h
  | cons m ms ih => exact ih _ (handleMatchV3_inv line st m h)

theorem processLineV3_inv (line n1 n2 : List Char) (st : PDFParserV3.St)
    (h : InvV3 st) : InvV3 (PDFParserV3.processLine line n1 n2 st) := by
  unfold PDFParserV3.processLine
  dsimp only
  split
  · exact ⟨h.1, h.2⟩
  · split
    · exact ⟨h.1, h.2⟩
    · split
      · exact h
      · exact processMatchesV3_inv _ _ _ h

theorem loopV3_inv (lines : List (List Char)) (st : PDFParserV3.St)
    (h : InvV3 st) : InvV3 (PDFParserV3.loop lines st) := by
  induction lines generalizing st with
  | nil => exact h
  | cons l rest ih => exact ih _ (processLineV3_inv _ _ _ _ h)

theorem extractClassesV3_pairwise (text : String) :
    (PDFParserV3.extractClasses text).Pairwise (fun a b => keyV3 a ≠ keyV3 b) :=
  (loopV3_inv (splitLines text.data) ⟨"", [], false, [], []⟩
    ⟨fun _ hc => absurd hc (List.not_mem_nil _), List.Pairwise.nil⟩).2

theorem upperFmtDay : ∀ d ∈ DAYS, jsToUpper (fmtDay d) = d := by decide

theorem pushUniqueOpt_inv (st : PDFParserOptimized.St) (k : String) (e : ClassSchedule)
    (hk : keyOpt e = k) (h : InvOpt st) :
    InvOpt (PDFParserOptimized.pushUnique st k e) := by
  unfold PDFParserOptimized.pushUnique
  split
  · exact h
  · rename_i hc
    have hnot : k ∉ st.seen := contains_not_true_not_mem hc
    refine ⟨h.1, ?_, ?_⟩
    · intro c hcmem
      rcases List.mem_append.mp hcmem with hmem | hmem
      · exact List.mem_cons_of_mem _ (h.2.1 c hmem)
      · rcases List.mem_singleton.mp hmem with rfl
        rw [hk]
        exact List.mem_cons_self _ _
    · rw [List.pairwise_append]
      refine ⟨h.2.2, List.pairwise_singleton _ _, ?_⟩
      intro a ha b hb
      rcases List.mem_singleton.mp hb with rfl
      intro heq
      exact hnot (hk ▸ heq ▸ h.2.1 a ha)

theorem handleMatchOpt_inv (line : List Char) (st : PDFParserOptimized.St)
    (m : CourseTok × Nat) (hd : st.currentDay ∈ DAYS) (h : InvOpt st) :
    InvOpt (PDFParserOptimized.handleMatch line st m) := by
  unfold PDFParserOptimized.handleMatch
  dsimp only
  split
  · exact h
  · refine pushUniqueOpt_inv _ _ _ ?_ h
    simp only [keyOpt]
    rw [upperFmtDay st.currentDay hd]

theorem handleMatchOpt_day (line : List Char) (st : PDFParserOptimized.St)
    (m : CourseTok × Nat) :
    (PDFParserOptimized.handleMatch line st m).currentDay = st.currentDay := by
  unfold PDFParserOptimized.handleMatch PDFParserOptimized.pushUnique
  dsimp only
  split
  · rfl
  · split <;> rfl

theorem processMatchesOpt_inv (line : List Char) (ms : List (CourseTok × Nat))
    (st : PDFParserOptimized.St) (hd : st.currentDay ∈ DAYS) (h : InvOpt st) :
    InvOpt (PDFParserOptimized.processMatches line ms st) := by
  induction ms generalizing st with
  | nil => exact h
  | cons m ms ih =>
    exact ih _ ((handleMatchOpt_day line st m).symm ▸ hd)
      (handleMatchOpt_inv line st m hd h)

theorem processLineOpt_inv (line : List Char) (st : PDFParserOptimized.St)
    (h : InvOpt st) : InvOpt (PDFParserOptimized.processLine line st) := by
  unfold PDFParserOptimized.processLine
  split
  · exact h
  · rename_i hcond
    have hne : ¬(st.currentDay == "") = true := by
      intro hb
      exact hcond (by simp [hb])
    have hd : st.currentDay ∈ DAYS := by
      rcases h.1 with hval | hval
      · exact absurd (by simp [hval]) hne
      · exact hval
    exact processMatchesOpt_inv _ _ _ hd h

theorem loopOpt_inv_aux (n : Nat) :
    ∀ (lines : List (List Char)) (st : PDFParserOptimized.St),
      lines.length ≤ n → InvOpt st → InvOpt (PDFParserOptimized.loop lines st) := by
  induction n with
  | zero =>
    intro lines st hl h
    cases lines with
    | nil => exact h
    | cons l rest => simp at hl
  | succ n ih =>
    intro lines st hl h
    cases lines with
    | nil => exact h
    | cons l rest =>
      rw [PDFParserOptimized.loop]
      split
      · rename_i hday
        have hd2 : InvOpt { st with
            currentDay := String.mk ((jsTrim l).map jsToUpperChar),
            timeSlots := PDFParserOptimized.buildTimeSlots
              (timeScan (rest.getD 0 [])) (anchorScan (rest.getD 1 [])) } :=
          ⟨Or.inr (contains_true_mem hday), h.2.1, h.2.2⟩
        match rest with
        | [] => exact hd2
        | [_] => exact hd2
        | _ :: _ :: rest2 =>
          apply ih rest2 _ _ hd2
          simp at hl
          omega
      · apply ih rest _ _ (processLineOpt_inv l st h)
        simpa using Nat.le_of_succ_le_succ (by simpa using hl)

theorem extractClassesOpt_pairwise (text : String) :
    (PDFParserOptimized.extractClasses text).Pairwise
      (fun a b => keyOpt a ≠ keyOpt b) :=
  (loopOpt_inv_aux (splitLines text.data).length (splitLines text.data)
    ⟨"", [], [], []⟩ (Nat.le_refl _)
    ⟨Or.inl rfl, fun _ hc => absurd hc (List.not_mem_nil _), List.Pairwise.nil⟩).2.2

/-! ## Lemmas on the busiest and lightest day scan -/

theorem statLoop_lightest_spec (counts : String → Nat) :
    ∀ (ds : List String) (acc : PDFParserV3.StatAcc),
      (((PDFParserV3.statLoop counts ds acc).lightestDay = acc.lightestDay ∧
        (PDFParserV3.statLoop counts ds acc).lightestCount = acc.lightestCount) ∨
       (∃ d ∈ ds, 0 < counts d ∧
         (PDFParserV3.statLoop counts ds acc).lightestCount = some (counts d) ∧
         (PDFParserV3.statLoop counts ds acc).lightestDay = d)) ∧
      (∀ d ∈ ds, 0 < counts d →
        ∃ w, (PDFParserV3.statLoop counts ds acc).lightestCount = some w ∧
             w ≤ counts d) ∧
      (∀ v, acc.lightestCount = some v →
        ∃ w, (PDFParserV3.statLoop counts ds acc).lightestCount = some w ∧ w ≤ v) := by
  intro ds
  induction ds with
  | nil =>
    intro acc
    refine ⟨Or.inl ⟨rfl, rfl⟩, ?_, ?_⟩
    · intro d hd
      exact absurd hd (List.not_mem_nil d)
    · intro v hv
      exact ⟨v, hv, Nat.le_refl v⟩
  | cons day rest ih =>
    intro acc
    rw [PDFParserV3.statLoop]
    generalize hacc1 :
      (if counts day > acc.busiestCount then
        { acc with busiestDay := day, busiestCount := counts day } else acc) = acc1
    have hl1 : acc1.lightestCount = acc.lightestCount := by
      rw [← hacc1]; split <;> rfl
    have hl2 : acc1.lightestDay = acc.lightestDay := by
      rw [← hacc1]; split <;> rfl
    by_cases h2 :
        (PDFParserV3.ltInfinity (counts day) acc1.lightestCount &&
         decide (counts day > 0)) = true
    · rw [if_pos h2]
      rw [Bool.and_eq_true] at h2
      rcases h2 with ⟨hlt, hpos⟩
      have hpos2 : 0 < counts day := of_decide_eq_true hpos
      have ihu := ih { acc1 with lightestDay := day, lightestCount := some (counts day) }
      refine ⟨?_, ?_, ?_⟩
      · rcases ihu.1 with ⟨hd1, hd2⟩ | ⟨d2, hd2, hp2, hc2, hdd2⟩
        · exact Or.inr ⟨day, List.mem_cons_self day rest, hpos2, hd2, hd1⟩
        · exact Or.inr ⟨d2, List.mem_cons_of_mem day hd2, hp2, hc2, hdd2⟩
      · intro d hd hp
        rcases List.mem_cons.mp hd with rfl | hd2
        · exact ihu.2.2 (counts d) rfl
        · exact ihu.2.1 d hd2 hp
      · intro v hv
        rw [hl1] at hlt
        rw [hv] at hlt
        have hltv : counts day < v := of_decide_eq_true hlt
        rcases ihu.2.2 (counts day) rfl with ⟨w, hw, hwle⟩
        exact ⟨w, hw, Nat.le_trans hwle (Nat.le_of_lt hltv)⟩
    · rw [if_neg h2]
      have ihu := ih acc1
      refine ⟨?_, ?_, ?_⟩
      · rcases ihu.1 with ⟨hd1, hd2⟩ | ⟨d2, hd2, hp2, hc2, hdd2⟩
        · exact Or.inl ⟨hd1.trans hl2, hd2.trans hl1⟩
        · exact Or.inr ⟨d2, List.mem_cons_of_mem day hd2, hp2, hc2, hdd2⟩
      · intro d hd hp
        rcases List.mem_cons.mp hd with rfl | hd2
        · rcases hv0 : acc.lightestCount with _ | v0
          · exfalso
            apply h2
            rw [hl1, hv0]
            simp [PDFParserV3.ltInfinity, hp]
          · have hnlt : ¬(counts d < v0) := by
              intro hcon
              apply h2
              rw [hl1, hv0]
              simp [PDFParserV3.ltInfinity, hcon, hp]
            rcases ihu.2.2 v0 (hl1.trans hv0) with ⟨w, hw, hwle⟩
            exact ⟨w, hw, Nat.le_trans hwle (Nat.le_of_not_lt hnlt)⟩
        · exact ihu.2.1 d hd2 hp
      · intro v hv
        exact ihu.2.2 v (hl1.trans hv)

/-! ## Lemmas on grouping -/

theorem countFilterDay (entries : List ClassSchedule) (d : String) (a : ClassSchedule) :
    ((entries.filter (fun c => c.day == d)).count a) =
      if a.day = d then entries.count a else 0 := by
  by_cases had : a.day = d
  · rw [if_pos had]
    exact List.count_filter (by simpa using had)
  · rw [if_neg had]
    apply List.count_eq_zero.mpr
    intro hmem
    exact had (by simpa using (List.mem_filter.mp hmem).2)

theorem sum_ite_mem (s : String) (n : Nat) :
    ∀ (ds : List String), ds.Nodup →
      ((ds.map (fun d => if s = d then n else 0)).sum) = if s ∈ ds then n else 0 := by
  intro ds
  induction ds with
  | nil => intro _; simp
  | cons d rest ih =>
    intro hnd
    rw [List.map_cons, List.sum_cons, ih (List.nodup_cons.mp hnd).2]
    by_cases h : s = d
    · subst h
      have hns : s ∉ rest := (List.nodup_cons.mp hnd).1
      simp [hns]
    · by_cases h2 : s ∈ rest <;> simp [h, h2, List.mem_cons]

/-! ## Lemmas on the cache store -/

theorem getCacheStatus_after_clear (db : CacheDb) (dept : String) (now : Nat) :
    (PdfCacheService.getCacheStatus dept now (PdfCacheService.clearCache dept db)).isCached = false := by
  unfold PdfCacheService.getCacheStatus PdfCacheService.clearCache
  dsimp only
  have hnil : ((db.pdfCache.filter (fun c => !(c.department == dept))).filter
      (fun c => c.department == dept)) = [] := by
    rw [List.filter_filter]
    apply List.filter_eq_nil_iff.mpr
    intro a _
    cases h : (a.department == dept) <;> simp [h]
  rw [hnil]
  rfl

theorem getCacheStatus_sound (db : CacheDb) (dept : String) (now : Nat)
    (h : (PdfCacheService.getCacheStatus dept now db).isCached = true) :
    ∃ c ∈ db.pdfCache, c.department = dept ∧ now < c.expiresAt := by
  unfold PdfCacheService.getCacheStatus at h
  cases hf : db.pdfCache.filter (fun c => c.department == dept) with
  | nil =>
    rw [hf] at h
    simp at h
  | cons c cs =>
    rw [hf] at h
    have hc : c ∈ db.pdfCache ∧ (c.department == dept) = true :=
      List.mem_filter.mp (hf ▸ List.mem_cons_self c cs)
    refine ⟨c, hc.1, by simpa using hc.2, ?_⟩
    simp only [List.take] at h
    simp at h
    omega

/-! ## Lemmas on column construction -/

theorem buildTimeSlotsAuxOpt_length (positions : List Nat) :
    ∀ (times : List (String × String)) (idx : Nat),
      (PDFParserOptimized.buildTimeSlotsAux positions idx times).length = times.length := by
  intro times
  induction times with
  | nil => intro idx; rfl
  | cons t rest ih =>
    intro idx
    rw [PDFParserOptimized.buildTimeSlotsAux]
    simp [ih (idx + 1)]

theorem buildTimeSlotsAuxOpt_get (positions : List Nat) :
    ∀ (times : List (String × String)) (idx i : Nat), i < times.length →
      (PDFParserOptimized.buildTimeSlotsAux positions idx times).get? i =
        some ⟨(times.getD i ("", "")).1, (times.getD i ("", "")).2,
              PDFParserOptimized.jsIdxOr positions (idx + i) 0,
              PDFParserOptimized.jsIdxOr positions (idx + i + 1) 999⟩ := by
  intro times
  induction times with
  | nil =>
    intro idx i h
    simp at h
  | cons t rest ih =>
    intro idx i h
    cases i with
    | zero =>
      simp [PDFParserOptimized.buildTimeSlotsAux, List.getD]
    | succ i2 =>
      rw [PDFParserOptimized.buildTimeSlotsAux]
      have h2 : i2 < rest.length := by simpa using Nat.lt_of_succ_lt_succ (by simpa using h)
      have e1 : idx + 1 + i2 = idx + (i2 + 1) := by omega
      calc (⟨t.1, t.2, PDFParserOptimized.jsIdxOr positions idx 0,
              PDFParserOptimized.jsIdxOr positions (idx + 1) 999⟩ ::
            PDFParserOptimized.buildTimeSlotsAux positions (idx + 1) rest).get? (i2 + 1)
          = (PDFParserOptimized.buildTimeSlotsAux positions (idx + 1) rest).get? i2 := rfl
        _ = some ⟨(rest.getD i2 ("", "")).1, (rest.getD i2 ("", "")).2,
                  PDFParserOptimized.jsIdxOr positions (idx + 1 + i2) 0,
                  PDFParserOptimized.jsIdxOr positions (idx + 1 + i2 + 1) 999⟩ := ih (idx + 1) i2 h2
        _ = some ⟨((t :: rest).getD (i2 + 1) ("", "")).1, ((t :: rest).getD (i2 + 1) ("", "")).2,
                  PDFParserOptimized.jsIdxOr positions (idx + (i2 + 1)) 0,
                  PDFParserOptimized.jsIdxOr positions (idx + (i2 + 1) + 1) 999⟩ := by
            rw [e1]
            rfl

/-! ## Claims -/

/-- C1 counterexample: the entry line of c1text holds two candidates that
agree on day, time slot, course code and batch-section and differ in
teacher (MB versus XY) and room (KT-222 versus KT-300), yet
PDFParserV3.extractClasses keeps only the first; the claimed six-field
deduplication would retain both, as PDFParserOptimized.extractClasses
indeed does. -/
theorem c1_dedup_counterexample :
    (PDFParserV3.extractClasses c1text).map (fun c => c.teacher) = ["MB"] ∧
    (PDFParserV3.extractClasses c1text).length ≠ 2 ∧
    (PDFParserOptimized.extractClasses c1text).map (fun c => c.teacher) = ["MB", "XY"] := by
  refine ⟨?_, ?_, ?_⟩ <;> decide

/-- C1 amended: PDFParserOptimized.extractClasses deduplicates on the
full six-field composite key, so no two entries of its result agree on
all of day, timeStart, courseCode, batchSection, teacher and room;
PDFParserV3.extractClasses deduplicates on the four-field key only, so no
two of its entries agree on day, timeStart, courseCode and batchSection,
and a later candidate agreeing on those four fields is discarded even
when teacher or room differ. -/
theorem c1_dedup_amended (text : String) :
    (PDFParserOptimized.extractClasses text).Pairwise (fun a b =>
      ¬(a.day = b.day ∧ a.timeStart = b.timeStart ∧ a.courseCode = b.courseCode ∧
        a.batchSection = b.batchSection ∧ a.teacher = b.teacher ∧ a.room = b.room)) ∧
    (PDFParserV3.extractClasses text).Pairwise (fun a b =>
      ¬(a.day = b.day ∧ a.timeStart = b.timeStart ∧ a.courseCode = b.courseCode ∧
        a.batchSection = b.batchSection)) := by
  constructor
  · apply (extractClassesOpt_pairwise text).imp
    intro a b hne hfe
    rcases hfe with ⟨h1, h2, h3, h4, h5, h6⟩
    apply hne
    simp only [keyOpt]
    rw [h1, h2, h3, h4, h5, h6]
  · apply (extractClassesV3_pairwise text).imp
    intro a b hne hfe
    rcases hfe with ⟨h1, h2, h3, h4⟩
    apply hne
    simp only [keyV3]
    rw [h1, h2, h3, h4]

/-- C2 counterexample: c2text has two detected time ranges but a single
Course anchor; the claim says index-order pairing up to the shorter
length still extracts the day block, but PDFParserV3.extractClasses
yields no entry at all for the whole block. -/
theorem c2_mismatch_counterexample :
    PDFParserV3.extractClasses c2text = [] := by decide

/-- C2 amended: on a count mismatch PDFParserV3 builds an empty slot
list, and any line processed under an empty slot list contributes no
entries, so the whole day block is dropped rather than paired up to the
shorter length; PDFParserOptimized builds exactly one slot per detected
time range in index order, the missing anchor offsets defaulting to 0 and
999, anchors beyond the time-range count being ignored. -/
theorem c2_mismatch_amended :
    (∀ (times : List (String × String)) (positions : List Nat),
      times.length ≠ positions.length →
      PDFParserV3.buildTimeSlots times positions = []) ∧
    (∀ (line n1 n2 : List Char) (st : PDFParserV3.St),
      st.timeSlots = [] →
      (PDFParserV3.processLine line n1 n2 st).classes = st.classes) ∧
    (∀ (times : List (String × String)) (positions : List Nat),
      (PDFParserOptimized.buildTimeSlots times positions).length = times.length) ∧
    (∀ (times : List (String × String)) (positions : List Nat) (i : Nat),
      i < times.length →
      (PDFParserOptimized.buildTimeSlots times positions).get? i =
        some ⟨(times.getD i ("", "")).1, (times.getD i ("", "")).2,
              PDFParserOptimized.jsIdxOr positions i 0,
              PDFParserOptimized.jsIdxOr positions (i + 1) 999⟩) := by
  refine ⟨?_, ?_, ?_, ?_⟩
  · intro times positions hne
    simp [PDFParserV3.buildTimeSlots, hne]
  · intro line n1 n2 st h
    unfold PDFParserV3.processLine
    dsimp only
    split
    · rfl
    · split
      · rfl
      · split
        · rfl
        · rename_i hcond
          exact absurd (by simp [h]) hcond
  · intro times positions
    exact buildTimeSlotsAuxOpt_length positions times 0
  · intro times positions i hi
    have := buildTimeSlotsAuxOpt_get positions times 0 i hi
    simpa using this

/-- C2 witness: concrete instances of the four amended statements. -/
theorem c2_mismatch_witness :
    PDFParserV3.buildTimeSlots [("08:30", "10:00"), ("10:00", "11:30")] [0] = [] ∧
    (PDFParserV3.processLine ("KT-222CSE112(71_I)MB".data) [] []
      ⟨"SATURDAY", [], false, [], []⟩).classes = [] ∧
    (PDFParserOptimized.buildTimeSlots [("08:30", "10:00"), ("10:00", "11:30")] [5]).length = 2 ∧
    (PDFParserOptimized.buildTimeSlots [("08:30", "10:00"), ("10:00", "11:30")] [5]).get? 1 =
      some ⟨"10:00", "11:30", PDFParserOptimized.jsIdxOr [5] 1 0,
            PDFParserOptimized.jsIdxOr [5] 2 999⟩ :=
  ⟨c2_mismatch_amended.1 _ _ (by decide),
   c2_mismatch_amended.2.1 _ _ _ _ rfl,
   c2_mismatch_amended.2.2.1 _ _,
   c2_mismatch_amended.2.2.2 _ _ 1 (by decide)⟩

/-- C7: the four-line SATURDAY block of c7text extracts exactly the two
claimed entries, the first in the 08:30 column with room KT-222 and
teacher MB, the second in the 10:00 column with room KT-223 and teacher
AST, both for batch-section 71_I; the day field carries the canonical
uppercase weekday form used by PDFParserV3. -/
theorem c7_saturday_scenario :
    PDFParserV3.extractClasses c7text =
      [⟨"SATURDAY", "08:30", "10:00", "CSE112", "Computer Fundamentals",
        "71", "I", "KT-222", "MB", "71_I"⟩,
       ⟨"SATURDAY", "10:00", "11:30", "MAT101", "Mathematics - I",
        "71", "I", "KT-223", "AST", "71_I"⟩] := by decide

/-- C8 counterexample: a retrieval failure and an extraction failure with
the same cause text produce the very same surfaced error value, so the
caller receives one undifferentiated error kind, not two distinct ones. -/
theorem c8_error_counterexample :
    (PDFParserV3.parsePDFFromURL (Except.error "timeout of 30000ms exceeded")
      (fun _ => Except.ok "")).1 =
    (PDFParserV3.parsePDFFromURL (Except.ok "pdfbytes")
      (fun _ => Except.error "timeout of 30000ms exceeded")).1 := rfl

/-- C8 amended: both a retrieval failure and an extraction failure abort
PDFParserV3.parsePDFFromURL with the cause attached to the single wrapped
error kind, the message prefix Failed to parse PDF; the fetch collaborator
is invoked exactly once and the extraction collaborator at most once, so
nothing is retried internally. -/
theorem c8_error_amended :
    (∀ (e : String) (extract : String → Except String String),
      PDFParserV3.parsePDFFromURL (Except.error e) extract =
        (Except.error ("Failed to parse PDF: " ++ e), 1, 0)) ∧
    (∀ (b e : String),
      PDFParserV3.parsePDFFromURL (Except.ok b) (fun _ => Except.error e) =
        (Except.error ("Failed to parse PDF: " ++ e), 1, 1)) :=
  ⟨fun _ _ => rfl, fun _ _ => rfl⟩

/-- C10: filterByRoom of PDFParserV3 and of PDFParserOptimized returns
exactly the entries whose room contains the uppercased query as a
substring. -/
theorem c10_filter_by_room (classes : List ClassSchedule) (q : String)
    (c : ClassSchedule) :
    (c ∈ PDFParserV3.filterByRoom classes q ↔
      c ∈ classes ∧ ∃ p t, c.room.data = p ++ (jsToUpper q).data ++ t) ∧
    (c ∈ PDFParserOptimized.filterByRoom classes q ↔
      c ∈ classes ∧ ∃ p t, c.room.data = p ++ (jsToUpper q).data ++ t) := by
  constructor
  · rw [PDFParserV3.filterByRoom, List.mem_filter, includesL_iff]
  · rw [PDFParserOptimized.filterByRoom, List.mem_filter, includesL_iff]

/-- C6: when the parse outcome is an error, getOrParsePdf writes neither
a cache record nor any class row; both tables are unchanged whatever the
prior state. -/
theorem c6_error_no_write (department pdfUrl version : String) (now : Nat)
    (e : String) (db : CacheDb) :
    ((PdfCacheService.getOrParsePdf department pdfUrl version now
        (Except.error e) db).2.pdfCache = db.pdfCache) ∧
    ((PdfCacheService.getOrParsePdf department pdfUrl version now
        (Except.error e) db).2.classSchedules = db.classSchedules) := by
  unfold PdfCacheService.getOrParsePdf
  dsimp only
  split
  · exact ⟨rfl, rfl⟩
  · exact ⟨rfl, rfl⟩

/-- C5: from a state holding one expired record for the key (cse, 1.0),
two getOrParsePdf calls at times 200 and 201 both trigger a parse
(parseCount 2), although the first call has persisted a fresh record
valid until 230, because the lookup reads only the oldest record for the
key and expired records are never replaced; three records for the same
key have accumulated afterwards. -/
theorem c5_cache_bug_demo :
    ((PdfCacheService.getOrParsePdf "cse" "u" "1.0" 200 (Except.ok demoParsed)
        c5db).2.pdfCache.get? 1 = some ⟨2, "cse", "u", "1.0", 200, 230, 1⟩) ∧
    ((PdfCacheService.getOrParsePdf "cse" "u" "1.0" 201 (Except.ok demoParsed)
        (PdfCacheService.getOrParsePdf "cse" "u" "1.0" 200 (Except.ok demoParsed)
          c5db).2).2.parseCount = 2) ∧
    ((PdfCacheService.getOrParsePdf "cse" "u" "1.0" 201 (Except.ok demoParsed)
        (PdfCacheService.getOrParsePdf "cse" "u" "1.0" 200 (Except.ok demoParsed)
          c5db).2).2.pdfCache.length = 3) := by
  refine ⟨?_, ?_, ?_⟩ <;> decide

/-- C9 counterexample: in a state where the oldest record of the
department is expired while a newer one is still valid, getCacheStatus
reports isCached false although a non-expired record exists, refuting the
claimed equivalence. -/
theorem c9_status_counterexample :
    (PdfCacheService.getCacheStatus "cse" 200 c9db).isCached = false ∧
    (∃ c ∈ c9db.pdfCache, c.department = "cse" ∧ 200 < c.expiresAt) := by
  constructor
  · decide
  · exact ⟨⟨2, "cse", "u", "1.0", 150, 300, 1⟩, by decide, by decide⟩

/-- C9 amended: a true isCached answer of getCacheStatus guarantees a
non-expired record of the department (the converse fails because only the
oldest stored record is examined), and clearCache followed by
getCacheStatus always reports isCached false. -/
theorem c9_status_amended (db : CacheDb) (dept : String) (now : Nat) :
    (PdfCacheService.getCacheStatus dept now
      (PdfCacheService.clearCache dept db)).isCached = false ∧
    ((PdfCacheService.getCacheStatus dept now db).isCached = true →
      ∃ c ∈ db.pdfCache, c.department = dept ∧ now < c.expiresAt) :=
  ⟨getCacheStatus_after_clear db dept now, getCacheStatus_sound db dept now⟩

/-- C9 witness: the soundness direction applied to a concrete state with
one valid record. -/
theorem c9_status_witness :
    (PdfCacheService.getCacheStatus "cse" 200
      (PdfCacheService.clearCache "cse" c9dbValid)).isCached = false ∧
    (∃ c ∈ c9dbValid.pdfCache, c.department = "cse" ∧ 200 < c.expiresAt) :=
  ⟨(c9_status_amended c9dbValid "cse" 200).1,
   (c9_status_amended c9dbValid "cse" 200).2 (by decide)⟩

/-- C3 counterexample: on an empty entries list PDFParserV3.calculateStats
returns Saturday for both the busiest and the lightest day, not the
claimed sentinel label. -/
theorem c3_stats_counterexample :
    (PDFParserV3.calculateStats []).busiestDay = "Saturday" ∧
    (PDFParserV3.calculateStats []).lightestDay = "Saturday" ∧
    (PDFParserV3.calculateStats []).busiestDay ≠ "N/A" := by
  refine ⟨?_, ?_, ?_⟩ <;> decide

/-- C3 amended: the lightest day of PDFParserV3.calculateStats is a
weekday with the minimum strictly positive count whenever some weekday
has a positive count, and a zero-count day is never reported; on an empty
entries list, however, only PDFParserV2.calculateStats resolves to the
sentinel N-slash-A with both counts 0, while PDFParserV3.calculateStats
returns the first weekday label Saturday with both counts 0; on nonempty
input the two functions agree. -/
theorem c3_stats_amended (classes : List ClassSchedule) :
    PDFParserV3.calculateStats [] = ⟨0, "Saturday", "Saturday", 0, 0⟩ ∧
    PDFParserV2.calculateStats [] = ⟨0, "N/A", "N/A", 0, 0⟩ ∧
    (∀ d ∈ DAYS, 0 < PDFParserV3.dayCount classes d →
      0 < (PDFParserV3.calculateStats classes).lightestDayCount ∧
      (PDFParserV3.calculateStats classes).lightestDayCount ≤
        PDFParserV3.dayCount classes d ∧
      ∃ d2 ∈ DAYS, 0 < PDFParserV3.dayCount classes d2 ∧
        PDFParserV3.dayCount classes d2 =
          (PDFParserV3.calculateStats classes).lightestDayCount ∧
        (PDFParserV3.calculateStats classes).lightestDay = fmtDay d2) ∧
    (0 < classes.length →
      PDFParserV2.calculateStats classes = PDFParserV3.calculateStats classes) := by
  refine ⟨by decide, by decide, ?_, ?_⟩
  · intro d hd hpos
    have hs := statLoop_lightest_spec (PDFParserV3.dayCount classes) DAYS
      ⟨DAYS.headD "", 0, DAYS.headD "", none⟩
    rcases hs.2.1 d hd hpos with ⟨w, hw, hwle⟩
    rcases hs.1 with ⟨_, hlc⟩ | ⟨d2, hd2, hp2, hc2, hld2⟩
    · rw [hw] at hlc
      simp at hlc
    · have hw2 : w = PDFParserV3.dayCount classes d2 := by
        rw [hw] at hc2
        exact Option.some.inj hc2
      have hcount : (PDFParserV3.calculateStats classes).lightestDayCount = w := by
        simp only [PDFParserV3.calculateStats]
        rw [hw]
        rfl
      have hday : (PDFParserV3.calculateStats classes).lightestDay = fmtDay d2 := by
        simp only [PDFParserV3.calculateStats]
        rw [hld2]
      refine ⟨?_, ?_, d2, hd2, hp2, ?_, hday⟩
      · rw [hcount, hw2]
        exact hp2
      · rw [hcount]
        exact hwle
      · rw [hcount]
        exact hw2.symm
  · intro hlen
    unfold PDFParserV2.calculateStats PDFParserV3.calculateStats
    rw [if_neg (by omega)]

/-- C3 witness: the amended statement applied to a one-entry Monday
schedule. -/
theorem c3_stats_witness :
    (0 < (PDFParserV3.calculateStats [monClass]).lightestDayCount ∧
     (PDFParserV3.calculateStats [monClass]).lightestDayCount ≤
       PDFParserV3.dayCount [monClass] "MONDAY" ∧
     ∃ d2 ∈ DAYS, 0 < PDFParserV3.dayCount [monClass] d2 ∧
       PDFParserV3.dayCount [monClass] d2 =
         (PDFParserV3.calculateStats [monClass]).lightestDayCount ∧
       (PDFParserV3.calculateStats [monClass]).lightestDay = fmtDay d2) ∧
    PDFParserV2.calculateStats [monClass] = PDFParserV3.calculateStats [monClass] :=
  ⟨(c3_stats_amended [monClass]).2.2.1 "MONDAY" (by decide) (by decide),
   (c3_stats_amended [monClass]).2.2.2 (by decide)⟩

/-- C4 counterexample: with valid but unordered days the concatenation of
the seven buckets reorders the input, and an entry whose day is not a
canonical uppercase weekday is dropped entirely, so concatenation does
not reproduce every input list exactly. -/
theorem c4_group_counterexample :
    ((PDFParserV3.groupByDay [monClass, satClass]).map Prod.snd).flatten ≠
      [monClass, satClass] ∧
    ((PDFParserV3.groupByDay [badDayClass]).map Prod.snd).flatten = [] := by
  constructor <;> decide

/-- C4 amended: groupByDay always returns exactly seven distinct keys;
when every entry's day is one of the seven canonical uppercase weekday
names, concatenating the seven bucket lists is a permutation of the input
(each entry kept exactly once, in weekday order rather than input
order); entries with a non-canonical day are dropped. -/
theorem c4_group_amended (entries : List ClassSchedule) :
    ((PDFParserV3.groupByDay entries).map Prod.fst).length = 7 ∧
    ((PDFParserV3.groupByDay entries).map Prod.fst).Nodup ∧
    ((∀ e ∈ entries, e.day ∈ DAYS) →
      (((PDFParserV3.groupByDay entries).map Prod.snd).flatten).Perm entries) := by
  have hkeys : (PDFParserV3.groupByDay entries).map Prod.fst = DAYS.map fmtDay := by
    simp [PDFParserV3.groupByDay, List.map_map]
  refine ⟨by rw [hkeys]; rfl, by rw [hkeys]; decide, ?_⟩
  intro hval
  rw [List.perm_iff_count]
  intro a
  have hsnd : (PDFParserV3.groupByDay entries).map Prod.snd =
      DAYS.map (fun d => entries.filter (fun c => c.day == d)) := by
    simp [PDFParserV3.groupByDay, List.map_map]
  rw [hsnd, List.count_flatten, List.map_map]
  have hmap : DAYS.map (List.count a ∘ fun d => entries.filter (fun c => c.day == d)) =
      DAYS.map (fun d => if a.day = d then entries.count a else 0) :=
    List.map_congr_left (fun d _ => countFilterDay entries d a)
  rw [hmap, sum_ite_mem a.day (entries.count a) DAYS (by decide)]
  by_cases hmem : a.day ∈ DAYS
  · rw [if_pos hmem]
  · rw [if_neg hmem]
    exact (List.count_eq_zero.mpr (fun hc => hmem (hval a hc))).symm

/-- C4 witness: the permutation statement applied to a one-entry
schedule with a canonical day. -/
theorem c4_group_witness :
    (((PDFParserV3.groupByDay [satClass]).map Prod.snd).flatten).Perm [satClass] :=
  (c4_group_amended [satClass]).2.2 (by decide)
